import Mathlib

/-!
Verification of the POS billing/inventory backend.

Shallow embedding of the two service layers of the repository:
* `SqliteDB` with the operations of `backend/services/sqlite_db_service.py`
  (the store used by `backend/routes/billing.py`), and
* `OrmDB` with the operations of `backend/services/db_service.py`
  (the SQLAlchemy store used by the inventory, categories and summary routes),
together with the relevant HTTP route handlers and the summary service.

Modelling conventions:
* SQL REAL / Python float columns (prices, stock, totals) are modelled as `Rat`;
  none of the verified properties depend on floating-point rounding.
* Timestamps are modelled as a pair of naturals `(created_date, created_time)`:
  the local calendar day and the second within the day.  SQL `date(created_at,
  'localtime')` is the `created_date` component; lexicographic comparison of
  `YYYY-MM-DD HH:MM:SS` strings is lexicographic comparison of the pair.
* The JSON `items` column is modelled as a structured list (serialisation and
  deserialisation compose to the identity and are elided).
* Peripheral columns never read by the verified operations (`image_filename`
  only set, product/category timestamps, `payment_method`, `today_token`,
  `group_name` of settings) are not modelled.
-/

namespace PSM

/-- One line item of a bill: the denormalised snapshot
`{product_id, name, price, quantity}` stored in the `items` JSON column. -/
structure Item where
  product_id : String
  name : String
  price : Rat
  quantity : Int
  deriving DecidableEq

/-- A row of the `products` table. -/
structure Product where
  product_id : String
  name : String
  price : Rat
  category_id : Option Nat
  category : Option String
  active : Bool
  deriving DecidableEq

/-- A row of the `categories` table. -/
structure Category where
  id : Nat
  name : String
  description : String
  active : Bool
  deriving DecidableEq

/-- A row of the `settings` table (`group_name` is never read back). -/
structure SettingRow where
  key : String
  value : String
  deriving DecidableEq

/-- A row of the `bills` table.  `items` holds the creation-time snapshot. -/
structure Bill where
  id : Nat
  bill_no : Int
  customer_name : String
  total_amount : Rat
  items : List Item
  status : String
  created_date : Nat
  created_time : Nat
  updated_date : Nat
  updated_time : Nat
  deriving DecidableEq

/-- A row of the `inventory` table (SQLAlchemy store only: the sqlite store of
`sqlite_db_service.py` has no inventory table). -/
structure InventoryItem where
  id : Nat
  name : String
  type : String
  unit : String
  stock : Rat
  unit_price : Rat
  alert_threshold : Rat
  max_stock_history : Rat
  product_id : Option String
  deriving DecidableEq

/-! ### Generic list helpers (model SQL UPDATE/DELETE/ORDER BY row handling) -/

/-- Insert into a list sorted by `le` (helper for `sortBy`). -/
def insertBy {α : Type} (le : α → α → Bool) (a : α) : List α → List α
  | [] => [a]
  | b :: l => if le a b then a :: b :: l else b :: insertBy le a l

/-- Insertion sort; models SQL `ORDER BY`. -/
def sortBy {α : Type} (le : α → α → Bool) : List α → List α
  | [] => []
  | a :: l => insertBy le a (sortBy le l)

/-- Apply `f` to the first element satisfying `p` (models a single-row SQL
UPDATE located with `.first()` / primary-key lookup). -/
def updateFirst {α : Type} (p : α → Bool) (f : α → α) : List α → List α
  | [] => []
  | a :: l => if p a then f a :: l else a :: updateFirst p f l

/-- Remove the first element satisfying `p` (models `session.delete(obj)`). -/
def removeFirst {α : Type} (p : α → Bool) : List α → List α
  | [] => []
  | a :: l => if p a then l else a :: removeFirst p l

/-- `MAX(bill_no)` over a set of bill rows (`None` on an empty set). -/
def maxBillNo : List Bill → Option Int
  | [] => none
  | b :: l =>
    match maxBillNo l with
    | none => some b.bill_no
    | some m => some (max b.bill_no m)

/-- `ORDER BY created_at ASC` comparison: timestamps lexicographically. -/
def tsLe (a b : Bill) : Bool :=
  a.created_date < b.created_date ∨
    (a.created_date = b.created_date ∧ a.created_time ≤ b.created_time)

/-- `ORDER BY created_at DESC` comparison. -/
def tsGe (a b : Bill) : Bool := tsLe b a

/-- `SELECT value FROM settings WHERE key = ?` / `Settings.query.get(key)`. -/
def getSettingRow (settings : List SettingRow) (key : String) : Option SettingRow :=
  settings.find? (fun s => s.key = key)

/-- Drop leading whitespace characters. -/
def dropLeadingWS : List Char → List Char
  | [] => []
  | c :: l => if c.isWhitespace then dropLeadingWS l else c :: l

/-- SQL `TRIM(...)` / SQLAlchemy `func.trim(...)`: strip leading and trailing
whitespace from a status string. -/
def trimStr (s : String) : String :=
  ⟨(dropLeadingWS (dropLeadingWS s.data.reverse).reverse)⟩

/-! ### Input data shapes -/

/-- An entry of `bill_data['items']` as consumed by `create_bill` of either
service: only `product_id`, `price` and `quantity` are read (a `name` supplied
by the caller is discarded and re-resolved). -/
structure BillItemInput where
  product_id : String
  price : Rat
  quantity : Int
  deriving DecidableEq

/-- The `bill_data` dict passed to `create_bill`. -/
structure BillData where
  customer_name : String
  total_amount : Rat
  items : List BillItemInput
  deriving DecidableEq

/-- The keys of `product_data` present in an `update_product` call
(`None` = key absent = field left unchanged). -/
structure ProductUpdate where
  name : Option String
  price : Option Rat
  category_id : Option (Option Nat)
  category : Option (Option String)
  active : Option Bool
  deriving DecidableEq

/-- Apply the present fields of a `ProductUpdate` to a product row. -/
def applyProductUpdate (u : ProductUpdate) (p : Product) : Product :=
  { p with
    name := u.name.getD p.name
    price := u.price.getD p.price
    category_id := u.category_id.getD p.category_id
    category := u.category.getD p.category
    active := u.active.getD p.active }

/-- The dict produced per product by `get_all_products` (the fields the
billing route and the summary service read).  `category` is the legacy text
column, overwritten by the joined category name when the legacy value is
falsy and the joined name is truthy. -/
structure ProductRow where
  product_id : String
  name : String
  price : Rat
  category : Option String
  deriving DecidableEq

/-- `if not product.get('category') and product.get('category_name'):
product['category'] = product['category_name']` — Python truthiness on
`Option String` (falsy = `None` or the empty string). -/
def effCategory (legacy joined : Option String) : Option String :=
  if (legacy = none ∨ legacy = some "") ∧ ¬(joined = none ∨ joined = some "") then
    joined
  else legacy

/-- Build the `get_all_products` dict for one product
(`LEFT JOIN categories` for `category_name`). -/
def productRowOf (cats : List Category) (p : Product) : ProductRow :=
  let category_name :=
    p.category_id.bind (fun cid => (cats.find? (fun c => c.id = cid)).map (fun c => c.name))
  { product_id := p.product_id
    name := p.name
    price := p.price
    category := effCategory p.category category_name }

/-- Shared body of both services' `get_all_products` (active products only,
joined with categories, `ORDER BY name`). -/
def allProductRows (products : List Product) (cats : List Category) : List ProductRow :=
  sortBy (fun a b => a.name ≤ b.name)
    ((products.filter (fun p => p.active)).map (productRowOf cats))

/-- Enrich one input item into the stored snapshot: the name is re-resolved
through the catalog (`'Unknown Product'` when the id does not resolve), the
price and quantity are taken from the input. -/
def enrichItem (lookup : String → Option Product) (it : BillItemInput) : Item :=
  { product_id := it.product_id
    name :=
      match lookup it.product_id with
      | some p => p.name
      | none => "Unknown Product"
    price := it.price
    quantity := it.quantity }

/-! ### The sqlite store (`sqlite_db_service.py`), used by the billing route -/

/-- State of the sqlite database (`data/products.db`): the tables created by
`SQLiteDatabaseService.init_database`, plus the ambient local clock (`today` =
`date('now','localtime')`, `now_time` = current time of day) and the
autoincrement counter for `bills.id`. -/
structure SqliteDB where
  products : List Product
  categories : List Category
  bills : List Bill
  settings : List SettingRow
  next_id : Nat
  today : Nat
  now_time : Nat
  deriving DecidableEq

namespace SqliteDB

/-- `get_product`: lookup by primary key (no `active` filter). -/
def get_product (db : SqliteDB) (pid : String) : Option Product :=
  db.products.find? (fun p => p.product_id = pid)

/-- `get_all_products` (default `include_inactive=False`): active products
joined with categories, ordered by name. -/
def get_all_products (db : SqliteDB) : List ProductRow :=
  allProductRows db.products db.categories

/-- The `bill_reset_daily` read inside `create_bill`:
`reset_daily = row['value'] == 'true' if row else True`. -/
def billResetDaily (db : SqliteDB) : Bool :=
  match getSettingRow db.settings "bill_reset_daily" with
  | some s => s.value = "true"
  | none => true

/-- The rows of `bills WHERE date(created_at,'localtime') = date('now','localtime')`. -/
def todaysBillRows (db : SqliteDB) : List Bill :=
  db.bills.filter (fun b => b.created_date = db.today)

/-- `create_bill`: enrich the items with re-resolved product names, compute
the next bill number (`COALESCE(MAX(bill_no), 0) + 1`, scoped to today's rows
when `bill_reset_daily` is true, to all rows otherwise), and insert the bill
with status `CONFIRMED`.  Returns the assigned number. -/
def create_bill (db : SqliteDB) (bd : BillData) : Int × SqliteDB :=
  let enriched := bd.items.map (enrichItem db.get_product)
  let next_bill_no :=
    if db.billResetDaily then (maxBillNo db.todaysBillRows).getD 0 + 1
    else (maxBillNo db.bills).getD 0 + 1
  let newBill : Bill :=
    { id := db.next_id
      bill_no := next_bill_no
      customer_name := bd.customer_name
      total_amount := bd.total_amount
      items := enriched
      status := "CONFIRMED"
      created_date := db.today
      created_time := db.now_time
      updated_date := db.today
      updated_time := db.now_time }
  (next_bill_no, { db with bills := db.bills ++ [newBill], next_id := db.next_id + 1 })

/-- `get_bill`: the bill with this number among today's rows only. -/
def get_bill (db : SqliteDB) (n : Int) : Option Bill :=
  db.bills.find? (fun b => b.bill_no = n ∧ b.created_date = db.today)

/-- `get_todays_bills`: today's non-cancelled rows, `ORDER BY bill_no ASC`. -/
def get_todays_bills (db : SqliteDB) : List Bill :=
  sortBy (fun a b => a.bill_no ≤ b.bill_no)
    (db.bills.filter (fun b => b.created_date = db.today ∧ trimStr b.status ≠ "CANCELLED"))

/-- `get_bills_by_date_range`: non-cancelled rows with
`date(created_at,'localtime') BETWEEN s AND e`, `ORDER BY created_at ASC`. -/
def get_bills_by_date_range (db : SqliteDB) (s e : Nat) : List Bill :=
  sortBy tsLe
    (db.bills.filter
      (fun b => s ≤ b.created_date ∧ b.created_date ≤ e ∧ trimStr b.status ≠ "CANCELLED"))

/-- `get_all_bills`: all non-cancelled rows, `ORDER BY created_at DESC`. -/
def get_all_bills (db : SqliteDB) : List Bill :=
  sortBy tsGe (db.bills.filter (fun b => trimStr b.status ≠ "CANCELLED"))

/-- `get_all_bills_management`: every row, cancelled included,
`ORDER BY created_at DESC`. -/
def get_all_bills_management (db : SqliteDB) : List Bill :=
  sortBy tsGe db.bills

/-- `cancel_bill`: `UPDATE bills SET status='CANCELLED',
updated_at=CURRENT_TIMESTAMP WHERE bill_no = ?` — note: no date filter, every
row with this number is updated; returns `rowcount > 0`. -/
def cancel_bill (db : SqliteDB) (n : Int) : Bool × SqliteDB :=
  let updated := db.bills.map (fun b =>
    if b.bill_no = n then
      { b with status := "CANCELLED", updated_date := db.today, updated_time := db.now_time }
    else b)
  ((db.bills.filter (fun b => b.bill_no = n)).length > 0, { db with bills := updated })

/-- `update_product`: dynamic UPDATE of the present fields; with no field
present it returns `False` without touching the row; otherwise returns
`rowcount > 0`. -/
def update_product (db : SqliteDB) (pid : String) (u : ProductUpdate) : Bool × SqliteDB :=
  if u.name = none ∧ u.price = none ∧ u.category_id = none ∧
      u.category = none ∧ u.active = none then
    (false, db)
  else
    (db.products.any (fun p => p.product_id = pid),
     { db with products := db.products.map (fun p =>
        if p.product_id = pid then applyProductUpdate u p else p) })

end SqliteDB

/-! ### The billing route (`routes/billing.py`), backed by the sqlite store -/

/-- An entry of the request's `products` list. -/
structure RawItem where
  product_id : String
  quantity : Int
  deriving DecidableEq

/-- The JSON body of `POST /api/bill/create` (fields the handler reads). -/
structure BillRequest where
  products : List RawItem
  customer_name : String
  deriving DecidableEq

/-- Outcome of the create-bill handler (HTTP status plus payload fields the
verified properties mention).  The response's date/time echo of the stored
bill is elided. -/
inductive BillResponse
  | badRequest (msg : String)
  | notFound (msg : String)
  | serverError (msg : String)
  | created (bill_no : Int) (total : Rat)
  deriving DecidableEq

/-- The validation loop of the handler: for each requested item, reject a
non-positive quantity with 400, resolve the product against
`get_all_products()` (active products) rejecting an unknown id with 404, and
otherwise accumulate the validated snapshot and the running total. -/
def validateItems (rows : List ProductRow) :
    List RawItem → Except BillResponse (List Item × Rat)
  | [] => .ok ([], 0)
  | it :: rest =>
    if it.quantity ≤ 0 then
      .error (.badRequest ("Quantity must be greater than 0 for product " ++ it.product_id))
    else
      match rows.find? (fun p => p.product_id = it.product_id) with
      | none => .error (.notFound ("Product with ID " ++ it.product_id ++ " not found"))
      | some p =>
        match validateItems rows rest with
        | .error e => .error e
        | .ok (items, total) =>
          .ok ({ product_id := it.product_id, name := p.name, price := p.price,
                 quantity := it.quantity } :: items,
               p.price * it.quantity + total)

/-- The `POST /api/bill/create` handler: validate the whole request first
(empty product list, individual items), and only then call the sqlite store's
`create_bill`; a returned `0` (falsy) becomes a 500. -/
def route_create_bill (db : SqliteDB) (req : BillRequest) : BillResponse × SqliteDB :=
  if req.products = [] then
    (.badRequest "Products list is required and cannot be empty", db)
  else
    match validateItems db.get_all_products req.products with
    | .error e => (e, db)
    | .ok (validated, total) =>
      let bd : BillData :=
        { customer_name := req.customer_name
          total_amount := total
          items := validated.map (fun i =>
            { product_id := i.product_id, price := i.price, quantity := i.quantity }) }
      let r := db.create_bill bd
      if r.1 = 0 then (.serverError "Failed to create bill in database", r.2)
      else (.created r.1 total, r.2)

/-! ### The SQLAlchemy store (`db_service.py`), used by the inventory,
categories and summary routes -/

/-- State of the SQLAlchemy database (`models.py` tables read by the verified
operations), plus the local clock and the surrogate-key counter for bills. -/
structure OrmDB where
  products : List Product
  categories : List Category
  bills : List Bill
  settings : List SettingRow
  inventory : List InventoryItem
  next_bill_id : Nat
  today : Nat
  now_time : Nat
  deriving DecidableEq

/-- `Inventory.query.filter_by(product_id=pid).first()` followed by
`inv_item.stock -= quantity`: deduct from the first inventory row linked to
the product, no-op when none is linked.  No lock check is performed here. -/
def deductFirst (pid : String) (qty : Int) : List InventoryItem → List InventoryItem
  | [] => []
  | i :: rest =>
    if i.product_id = some pid then { i with stock := i.stock - qty } :: rest
    else i :: deductFirst pid qty rest

namespace OrmDB

/-- `Product.query.get(product_id)`. -/
def getProduct (st : OrmDB) (pid : String) : Option Product :=
  st.products.find? (fun p => p.product_id = pid)

/-- `get_all_products` (default `include_inactive=False`). -/
def get_all_products (st : OrmDB) : List ProductRow :=
  allProductRows st.products st.categories

/-- `setting = Settings.query.get('bill_reset_daily');
reset_daily = (setting.value == 'true') if setting else True`. -/
def billResetDaily (st : OrmDB) : Bool :=
  match getSettingRow st.settings "bill_reset_daily" with
  | some s => s.value = "true"
  | none => true

/-- The bill-number computation of `DatabaseService.create_bill`:
`next_bill_no = 1`, then `if max_bill: next_bill_no = max_bill + 1` where
`max_bill` is `MAX(bill_no)` over today's rows (daily reset) or all rows
(Python truthiness: `None` and `0` both leave the initial `1`). -/
def nextBillNo (st : OrmDB) : Int :=
  match maxBillNo
      (if st.billResetDaily then st.bills.filter (fun b => b.created_date = st.today)
       else st.bills) with
  | some m => if m ≠ 0 then m + 1 else 1
  | none => 1

/-- `DatabaseService.create_bill`: compute the number, enrich the items
(re-resolving names via `Product.query.get`), deduct the linked inventory row
of each item, insert the bill, commit; any exception inside the `try` rolls
the session back and returns `0`.  The possibility of an internal
storage/commit failure is modelled by the `db_fails` flag: the `except`
branch restores the pre-call state and returns the error indicator `0`. -/
def create_bill (st : OrmDB) (bd : BillData) (db_fails : Bool) : Int × OrmDB :=
  if db_fails then (0, st)
  else
    let n := st.nextBillNo
    let enriched := bd.items.map (enrichItem st.getProduct)
    let inv := bd.items.foldl (fun acc it => deductFirst it.product_id it.quantity acc)
      st.inventory
    let newBill : Bill :=
      { id := st.next_bill_id
        bill_no := n
        customer_name := bd.customer_name
        total_amount := bd.total_amount
        items := enriched
        status := "CONFIRMED"
        created_date := st.today
        created_time := st.now_time
        updated_date := st.today
        updated_time := st.now_time }
    (n, { st with bills := st.bills ++ [newBill], inventory := inv,
                  next_bill_id := st.next_bill_id + 1 })

/-- `get_todays_bills`: today's non-cancelled rows ordered by bill number. -/
def get_todays_bills (st : OrmDB) : List Bill :=
  sortBy (fun a b => a.bill_no ≤ b.bill_no)
    (st.bills.filter (fun b => b.created_date = st.today ∧ trimStr b.status ≠ "CANCELLED"))

/-- `get_all_bills`: non-cancelled rows, `ORDER BY created_at DESC`. -/
def get_all_bills (st : OrmDB) : List Bill :=
  sortBy tsGe (st.bills.filter (fun b => trimStr b.status ≠ "CANCELLED"))

/-- `get_all_bills_management`: every row including cancelled ones. -/
def get_all_bills_management (st : OrmDB) : List Bill :=
  sortBy tsGe st.bills

/-- `DatabaseService.cancel_bill`: the first bill with this number created
today gets `status='CANCELLED'` and a fresh `updated_at`; nothing else is
touched (in particular no inventory reversal). -/
def cancel_bill (st : OrmDB) (n : Int) : Bool × OrmDB :=
  match st.bills.find? (fun b => b.bill_no = n ∧ b.created_date = st.today) with
  | none => (false, st)
  | some _ =>
    (true, { st with bills :=
      (updateFirst (fun b => b.bill_no = n ∧ b.created_date = st.today)
        (fun b => { b with status := "CANCELLED",
                           updated_date := st.today, updated_time := st.now_time })
        st.bills) })

/-- The lock test used by `adjust_inventory_stock` / `update_inventory`:
`i.type == 'DIRECT_SALE' and i.product_id and i.product and not
i.product.active` (truthiness of `product_id` = non-null and non-empty). -/
def invLocked (st : OrmDB) (i : InventoryItem) : Bool :=
  if i.type = "DIRECT_SALE" then
    match i.product_id with
    | none => false
    | some pid =>
      if pid = "" then false
      else
        match st.products.find? (fun p => p.product_id = pid) with
        | none => false
        | some p => !p.active
  else false

/-- The fields of the `get_inventory_item` dict that the inventory routes
read back. -/
structure InventoryView where
  id : Nat
  stock : Rat
  max_stock_history : Rat
  is_locked : Bool
  deriving DecidableEq

/-- `get_inventory_item`: derived `max_stock_history` display value and the
`is_locked` flag (`type == DIRECT_SALE`, truthy `product_id`, linked product
present and inactive). -/
def get_inventory_item (st : OrmDB) (iid : Nat) : Option InventoryView :=
  match st.inventory.find? (fun i => i.id = iid) with
  | none => none
  | some i =>
    let max_hist := if i.max_stock_history ≠ 0 then i.max_stock_history else 10
    let max_hist := if i.stock > max_hist then i.stock else max_hist
    let product_active :=
      match i.product_id with
      | none => true
      | some pid =>
        match st.products.find? (fun p => p.product_id = pid) with
        | none => true
        | some p => p.active
    let pid_truthy :=
      match i.product_id with
      | none => false
      | some pid => pid ≠ ""
    some { id := i.id, stock := i.stock, max_stock_history := max_hist,
           is_locked := i.type = "DIRECT_SALE" && pid_truthy && !product_active }

/-- `adjust_inventory_stock`: add the signed adjustment to the stock and
raise the high-water mark when exceeded (`max_stock_history or 10.0` as the
current mark); rejected when the row is locked or absent. -/
def adjust_inventory_stock (st : OrmDB) (iid : Nat) (adjustment : Rat) : Bool × OrmDB :=
  match st.inventory.find? (fun i => i.id = iid) with
  | none => (false, st)
  | some i =>
    if st.invLocked i then (false, st)
    else
      let new_stock := i.stock + adjustment
      let cur_max := if i.max_stock_history ≠ 0 then i.max_stock_history else 10
      let new_hist := if new_stock > cur_max then new_stock else i.max_stock_history
      (true, { st with inventory :=
        (updateFirst (fun j => j.id = iid)
          (fun j => { j with stock := new_stock, max_stock_history := new_hist })
          st.inventory) })

end OrmDB

/-- The keys present in an `update_inventory` call (`None` = key absent). -/
structure InventoryUpdate where
  name : Option String
  type : Option String
  unit : Option String
  stock : Option Rat
  unit_price : Option Rat
  alert_threshold : Option Rat
  product_id : Option (Option String)
  deriving DecidableEq

/-- Apply the present fields of an `InventoryUpdate`; a stock overwrite
raises `max_stock_history` when the new stock exceeds the stored mark. -/
def applyInventoryUpdate (u : InventoryUpdate) (i : InventoryItem) : InventoryItem :=
  let i := { i with
    name := u.name.getD i.name
    type := u.type.getD i.type
    unit := u.unit.getD i.unit }
  let i :=
    match u.stock with
    | none => i
    | some s =>
      { i with stock := s,
               max_stock_history := if s > i.max_stock_history then s
                                    else i.max_stock_history }
  { i with
    unit_price := u.unit_price.getD i.unit_price
    alert_threshold := u.alert_threshold.getD i.alert_threshold
    product_id := u.product_id.getD i.product_id }

namespace OrmDB

/-- `update_inventory`: rejected when the row is locked or absent, otherwise
update the present fields of the row. -/
def update_inventory (st : OrmDB) (iid : Nat) (u : InventoryUpdate) : Bool × OrmDB :=
  match st.inventory.find? (fun i => i.id = iid) with
  | none => (false, st)
  | some i =>
    if st.invLocked i then (false, st)
    else
      (true, { st with inventory :=
        (updateFirst (fun j => j.id = iid) (applyInventoryUpdate u) st.inventory) })

end OrmDB

/-- The `{used, reason}` dict of `is_category_used`. -/
structure Usage where
  used : Bool
  reason : String
  deriving DecidableEq

namespace OrmDB

/-- `DatabaseService.is_category_used`: reports `used` only from products
currently linked via `category_id`; the historical-bill scan present in the
sqlite service is not performed here ("assuming product link is sufficient"
per the source comment). -/
def is_category_used (st : OrmDB) (cid : Nat) : Usage :=
  match st.categories.find? (fun c => c.id = cid) with
  | none => { used := false, reason := "Category not found" }
  | some _ =>
    let linked := (st.products.filter (fun p => p.category_id = some cid)).length
    if linked > 0 then
      { used := true, reason := "linked to " ++ toString linked ++ " product(s)" }
    else { used := false, reason := "No usage found" }

/-- The keys present in an `update_category` call. -/
def update_category (st : OrmDB) (cid : Nat)
    (name : Option String) (description : Option String) (active : Option Bool) :
    Bool × OrmDB :=
  match st.categories.find? (fun c => c.id = cid) with
  | none => (false, st)
  | some _ =>
    (true, { st with categories :=
      (updateFirst (fun c => c.id = cid)
        (fun c => { c with name := name.getD c.name,
                           description := description.getD c.description,
                           active := active.getD c.active })
        st.categories) })

/-- `delete_category`: hard delete of the row when present. -/
def delete_category (st : OrmDB) (cid : Nat) : Bool × OrmDB :=
  match st.categories.find? (fun c => c.id = cid) with
  | none => (false, st)
  | some _ =>
    (true, { st with categories := removeFirst (fun c => c.id = cid) st.categories })

end OrmDB

/-! ### The inventory and categories routes (`routes/inventory.py`,
`routes/categories.py`), backed by the SQLAlchemy store -/

/-- Outcome of the stock-adjust / inventory-update handlers.  `locked` is the
distinct 409 response carrying the inactive-product message, separate from
the generic 404/400. -/
inductive InvResponse
  | badRequest
  | locked
  | ok
  | notFound
  deriving DecidableEq

/-- `POST /api/inventory/adjust`: a falsy id (absent or `0`) is a 400; a
locked row is rejected up front with the distinct 409 message; otherwise the
service-level adjustment runs. -/
def route_adjust_stock (st : OrmDB) (iid : Option Nat) (adjustment : Rat) :
    InvResponse × OrmDB :=
  match iid with
  | none => (.badRequest, st)
  | some i =>
    if i = 0 then (.badRequest, st)
    else
      match st.get_inventory_item i with
      | some item =>
        if item.is_locked then (.locked, st)
        else
          let r := st.adjust_inventory_stock i adjustment
          (if r.1 then .ok else .notFound, r.2)
      | none =>
        let r := st.adjust_inventory_stock i adjustment
        (if r.1 then .ok else .notFound, r.2)

/-- `PUT /api/inventory/<id>`: a locked row is rejected up front with the
distinct 409 message; otherwise the service-level update runs. -/
def route_update_inventory (st : OrmDB) (iid : Nat) (u : InventoryUpdate) :
    InvResponse × OrmDB :=
  match st.get_inventory_item iid with
  | some item =>
    if item.is_locked then (.locked, st)
    else
      let r := st.update_inventory iid u
      (if r.1 then .ok else .notFound, r.2)
  | none =>
    let r := st.update_inventory iid u
    (if r.1 then .ok else .notFound, r.2)

/-- Outcome of the category-delete handler. -/
inductive CategoryDeleteResponse
  | deactivated (reason : String)
  | removed
  | notFound
  deriving DecidableEq

/-- `DELETE /api/categories/<id>`: consult `is_category_used`; a used
category is deactivated instead of removed, an unused one is hard-deleted. -/
def route_delete_category (st : OrmDB) (cid : Nat) : CategoryDeleteResponse × OrmDB :=
  let usage := st.is_category_used cid
  if usage.used then
    let r := st.update_category cid none none (some false)
    (.deactivated usage.reason, r.2)
  else
    let r := st.delete_category cid
    (if r.1 then .removed else .notFound, r.2)

/-! ### The running system: billing is wired to the sqlite store, inventory
to the SQLAlchemy store (`routes/billing.py` instantiates
`SQLiteDatabaseService`, `routes/inventory.py` instantiates
`DatabaseService`) -/

/-- The two databases of the running application. -/
structure System where
  sq : SqliteDB
  orm : OrmDB
  deriving DecidableEq

/-- `POST /api/bill/create` as deployed: the handler operates on the sqlite
store only; the SQLAlchemy store holding the inventory table is not part of
the billing code path. -/
def System.create_bill_route (sys : System) (req : BillRequest) : BillResponse × System :=
  let r := route_create_bill sys.sq req
  (r.1, { sys with sq := r.2 })

/-! ### The summary service (`summary_service.py`), constructed over the
SQLAlchemy store by `routes/summary.py` -/

/-- Insertion-ordered dict accumulation: add `v` under `key`, updating the
existing entry in place or appending a new one (Python dict semantics). -/
def addAssoc {κ : Type} [DecidableEq κ] (key : κ) (v : Rat) :
    List (κ × Rat) → List (κ × Rat)
  | [] => [(key, v)]
  | (k, x) :: rest =>
    if k = key then (k, x + v) :: rest else (k, x) :: addAssoc key v rest

/-- `sum(bill['total_amount'] for bill in bills)`. -/
def sumAmounts (bs : List Bill) : Rat :=
  bs.foldl (fun acc b => acc + b.total_amount) 0

/-- The `(date, time)` pair a bill's `created_at` string stands for;
lexicographic comparison of the pairs models comparison of the
`YYYY-MM-DD HH:MM:SS` strings. -/
def tsOf (b : Bill) : Nat × Nat := (b.created_date, b.created_time)

/-- `a <= b` on timestamp pairs. -/
def tsPairLe (a b : Nat × Nat) : Bool :=
  a.1 < b.1 ∨ (a.1 = b.1 ∧ a.2 ≤ b.2)

/-- `min(timestamps)` (`None` on an empty list). -/
def minTimestamp : List (Nat × Nat) → Option (Nat × Nat)
  | [] => none
  | t :: l =>
    match minTimestamp l with
    | none => some t
    | some m => some (if tsPairLe t m then t else m)

/-- `max(timestamps)` (`None` on an empty list). -/
def maxTimestamp : List (Nat × Nat) → Option (Nat × Nat)
  | [] => none
  | t :: l =>
    match maxTimestamp l with
    | none => some t
    | some m => some (if tsPairLe m t then t else m)

/-- `max(dates_with_bills)` over the creation dates of a list of bills. -/
def maxDate : List Bill → Option Nat
  | [] => none
  | b :: l =>
    match maxDate l with
    | none => some b.created_date
    | some m => some (max b.created_date m)

/-- `_calculate_category_totals` resolution of one line item: the item's
`product_id` is looked up in the CURRENT `get_all_products()` rows; a found
product contributes its current (possibly `None`) category, an unresolved id
contributes the literal `"unknown"`. -/
def categoryOfItem (rows : List ProductRow) (it : Item) : Option String :=
  match rows.find? (fun p => p.product_id = it.product_id) with
  | some p => p.category
  | none => some "unknown"

/-- `_calculate_category_totals`: per-category sums of `price * quantity`
over every line item, categories resolved against the current catalog. -/
def calculate_category_totals (st : OrmDB) (bills : List Bill) :
    List (Option String × Rat) :=
  bills.foldl (fun acc b =>
    b.items.foldl (fun acc2 it =>
      addAssoc (categoryOfItem st.get_all_products it) (it.price * it.quantity) acc2)
      acc) []

/-- `_calculate_hourly_sales`: totals keyed by the hour component of the
bill's creation time. -/
def calculate_hourly_sales (bills : List Bill) : List (Nat × Rat) :=
  bills.foldl (fun acc b => addAssoc (b.created_time / 3600) b.total_amount acc) []

/-- `_get_peak_hour`: the first hour with the maximal total (`max` with a
key function returns the first maximal element). -/
def get_peak_hour : List (Nat × Rat) → Option Nat
  | [] => none
  | e :: l => some (l.foldl (fun best x => if x.2 > best.2 then x else best) e).1

/-- The summary dict.  In the no-bills dict of the source the `hourly_sales`
and `peak_hour` keys are absent; that dict is modelled with an empty list and
`none` here. -/
structure Summary where
  date : Nat
  total_bills : Nat
  total_sales : Rat
  category_totals : List (Option String × Rat)
  first_bill_time : Option Nat
  last_bill_time : Option Nat
  average_bill_value : Rat
  hourly_sales : List (Nat × Rat)
  peak_hour : Option Nat
  deriving DecidableEq

/-- The degenerate summary: all numeric fields zero, time fields null. -/
def zeroSummary (d : Nat) : Summary :=
  { date := d, total_bills := 0, total_sales := 0, category_totals := [],
    first_bill_time := none, last_bill_time := none, average_bill_value := 0,
    hourly_sales := [], peak_hour := none }

/-- The non-degenerate summary computed from a non-empty bill list. -/
def summaryOf (st : OrmDB) (d : Nat) (bills : List Bill) : Summary :=
  let total_sales := sumAmounts bills
  let hourly := calculate_hourly_sales bills
  let ts := bills.map tsOf
  { date := d
    total_bills := bills.length
    total_sales := total_sales
    category_totals := calculate_category_totals st bills
    first_bill_time := (minTimestamp ts).map (fun t => t.2)
    last_bill_time := (maxTimestamp ts).map (fun t => t.2)
    average_bill_value := total_sales / bills.length
    hourly_sales := hourly
    peak_hour := get_peak_hour hourly }

/-- `get_summary_for_date`: filter `get_all_bills()` (non-cancelled) to the
target date; the degenerate dict when nothing matches. -/
def get_summary_for_date (st : OrmDB) (d : Nat) : Summary :=
  let bills := st.get_all_bills.filter (fun b => b.created_date = d)
  if bills = [] then zeroSummary d
  else summaryOf st d bills

/-- The bill list and report date `get_today_summary` works on: today's
bills; when today is empty the service falls back to the bills of the most
recent date carrying any non-cancelled bill ("check for the most recent
bills and show them instead"), reporting that date. -/
def todayFallback (st : OrmDB) : List Bill × Nat :=
  if st.get_todays_bills = [] then
    match maxDate st.get_all_bills with
    | none => ([], st.today)
    | some mrd => (st.get_all_bills.filter (fun b => b.created_date = mrd), mrd)
  else (st.get_todays_bills, st.today)

/-- `get_today_summary`: the summary over `todayFallback`; the degenerate
dict only when no non-cancelled bill exists at all. -/
def get_today_summary (st : OrmDB) : Summary :=
  if (todayFallback st).1 = [] then zeroSummary st.today
  else summaryOf st (todayFallback st).2 (todayFallback st).1

/-! ### Helper lemmas -/

theorem mem_insertBy {α : Type} (le : α → α → Bool) (a x : α) (l : List α) :
    x ∈ insertBy le a l ↔ x = a ∨ x ∈ l := by
  induction l with
  | nil => simp [insertBy]
  | cons b t ih =>
    simp only [insertBy]
    by_cases h : le a b = true
    · simp [h]
    · rw [if_neg h]
      simp only [List.mem_cons, ih]
      tauto

theorem mem_sortBy {α : Type} (le : α → α → Bool) (x : α) (l : List α) :
    x ∈ sortBy le l ↔ x ∈ l := by
  induction l with
  | nil => simp [sortBy]
  | cons a t ih => simp [sortBy, mem_insertBy, ih]

theorem maxBillNo_eq_none (bs : List Bill) : maxBillNo bs = none ↔ bs = [] := by
  cases bs with
  | nil => simp [maxBillNo]
  | cons b l =>
    simp only [maxBillNo]
    cases maxBillNo l <;> simp

theorem maxBillNo_le (bs : List Bill) (m : Int) (h : maxBillNo bs = some m) :
    ∀ b ∈ bs, b.bill_no ≤ m := by
  induction bs generalizing m with
  | nil => simp
  | cons a l ih =>
    intro b hb
    simp only [maxBillNo] at h
    rcases hl : maxBillNo l with _ | m0 <;> rw [hl] at h <;>
      simp only [Option.some.injEq] at h
    · rcases (maxBillNo_eq_none l).mp hl with rfl
      rcases List.mem_singleton.mp hb with rfl
      exact le_of_eq h
    · rcases List.mem_cons.mp hb with rfl | hbl
      · exact h ▸ le_max_left _ _
      · exact le_trans (ih m0 hl b hbl) (h ▸ le_max_right _ _)

theorem maxBillNo_mem (bs : List Bill) (m : Int) (h : maxBillNo bs = some m) :
    ∃ b ∈ bs, b.bill_no = m := by
  induction bs generalizing m with
  | nil => simp [maxBillNo] at h
  | cons a l ih =>
    simp only [maxBillNo] at h
    rcases hl : maxBillNo l with _ | m0 <;> rw [hl] at h
    · simp only [Option.some.injEq] at h
      exact ⟨a, List.mem_cons_self a l, h⟩
    · simp only [Option.some.injEq] at h
      rcases max_cases a.bill_no m0 with ⟨hmax, _⟩ | ⟨hmax, _⟩
      · exact ⟨a, List.mem_cons_self a l, by rw [← h, hmax]⟩
      · rcases ih m0 hl with ⟨b, hb, hbm⟩
        exact ⟨b, List.mem_cons_of_mem a hb, by rw [← h, hmax, hbm]⟩

/-- The spec-language characterisation of `MAX(bill_no)` over a non-empty
scope: attained by some row and an upper bound on every row. -/
def IsMaxBillNo (bs : List Bill) (m : Int) : Prop :=
  (∃ b ∈ bs, b.bill_no = m) ∧ ∀ b ∈ bs, b.bill_no ≤ m

instance (bs : List Bill) (m : Int) : Decidable (IsMaxBillNo bs m) := by
  unfold IsMaxBillNo
  infer_instance

theorem maxBillNo_of_isMax {bs : List Bill} {m : Int} (h : IsMaxBillNo bs m) :
    maxBillNo bs = some m := by
  obtain ⟨⟨b, hb, hbm⟩, hub⟩ := h
  rcases hmax : maxBillNo bs with _ | m0
  · rcases (maxBillNo_eq_none bs).mp hmax with rfl
    simp at hb
  · obtain ⟨b0, hb0, hb0m⟩ := maxBillNo_mem bs m0 hmax
    have h1 : m0 ≤ m := hb0m ▸ hub b0 hb0
    have h2 : m ≤ m0 := hbm ▸ maxBillNo_le bs m0 hmax b hb
    rw [le_antisymm h1 h2]

theorem find?_append_last {α : Type} (p : α → Bool) (l : List α) (x : α)
    (h : ∀ y ∈ l, p y = false) :
    List.find? p (l ++ [x]) = if p x then some x else none := by
  induction l with
  | nil => cases hpx : p x <;> simp [List.find?, hpx]
  | cons a t ih =>
    have ha : p a = false := h a (List.mem_cons_self a t)
    simp only [List.cons_append, List.find?, ha]
    exact ih (fun y hy => h y (List.mem_cons_of_mem a hy))

theorem updateFirst_append {α : Type} (p : α → Bool) (f : α → α)
    (pre : List α) (b : α) (post : List α)
    (hpre : ∀ x ∈ pre, p x = false) (hb : p b = true) :
    updateFirst p f (pre ++ b :: post) = pre ++ f b :: post := by
  induction pre with
  | nil => simp [updateFirst, hb]
  | cons a t ih =>
    have ha : p a = false := hpre a (List.mem_cons_self a t)
    simp only [List.cons_append, updateFirst, ha, if_false, Bool.false_eq_true,
      List.cons.injEq, true_and]
    exact ih (fun x hx => hpre x (List.mem_cons_of_mem a hx))

theorem deductFirst_append (pid : String) (qty : Int)
    (pre : List InventoryItem) (i : InventoryItem) (post : List InventoryItem)
    (hpre : ∀ j ∈ pre, j.product_id ≠ some pid) (hi : i.product_id = some pid) :
    deductFirst pid qty (pre ++ i :: post)
      = pre ++ { i with stock := i.stock - qty } :: post := by
  induction pre with
  | nil => simp [deductFirst, hi]
  | cons a t ih =>
    have ha : a.product_id ≠ some pid := hpre a (List.mem_cons_self a t)
    simp only [List.cons_append, deductFirst]
    rw [if_neg ha]
    exact congrArg (List.cons a)
      (ih (fun j hj => hpre j (List.mem_cons_of_mem a hj)))

theorem deductFirst_no_match (pid : String) (qty : Int) (l : List InventoryItem)
    (h : ∀ j ∈ l, j.product_id ≠ some pid) :
    deductFirst pid qty l = l := by
  induction l with
  | nil => rfl
  | cons a t ih =>
    have ha : a.product_id ≠ some pid := h a (List.mem_cons_self a t)
    simp only [deductFirst]
    rw [if_neg ha]
    exact congrArg (List.cons a) (ih (fun j hj => h j (List.mem_cons_of_mem a hj)))

theorem trim_cancelled : trimStr "CANCELLED" = "CANCELLED" := by decide

/-! ### C1 — bill numbering in `create_bill` -/

/-- C1: `createBill` assigns the next bill number from the `bill_reset_daily`
setting (default true when the key is absent); with daily reset the number is
one greater than the maximum `bill_no` among the bills created on the current
calendar day in local time, without it one greater than the maximum over all
bills, and `1` when the relevant scope holds no prior bill. -/
theorem createBill_next_number (db : SqliteDB) (bd : BillData) :
    (getSettingRow db.settings "bill_reset_daily" = none → db.billResetDaily = true)
    ∧ (db.billResetDaily = true →
        (db.todaysBillRows = [] → (db.create_bill bd).1 = 1)
        ∧ ∀ m : Int, IsMaxBillNo db.todaysBillRows m → (db.create_bill bd).1 = m + 1)
    ∧ (db.billResetDaily = false →
        (db.bills = [] → (db.create_bill bd).1 = 1)
        ∧ ∀ m : Int, IsMaxBillNo db.bills m → (db.create_bill bd).1 = m + 1) := by
  refine ⟨fun h => ?_, fun h => ⟨fun h2 => ?_, fun m hm => ?_⟩,
    fun h => ⟨fun h2 => ?_, fun m hm => ?_⟩⟩
  · simp [SqliteDB.billResetDaily, h]
  · simp [SqliteDB.create_bill, h, h2, maxBillNo]
  · simp [SqliteDB.create_bill, h, maxBillNo_of_isMax hm]
  · simp [SqliteDB.create_bill, h, h2, maxBillNo]
  · simp [SqliteDB.create_bill, h, maxBillNo_of_isMax hm]

/-- Fixture for the C1 witness: two bills today (numbers 3 and 7) and a
higher-numbered bill on an earlier day; no settings rows. -/
def c1db : SqliteDB :=
  { products := [], categories := []
    bills :=
      [{ id := 1, bill_no := 3, customer_name := "", total_amount := 0, items := [],
         status := "CONFIRMED", created_date := 10, created_time := 5,
         updated_date := 10, updated_time := 5 },
       { id := 2, bill_no := 7, customer_name := "", total_amount := 0, items := [],
         status := "CONFIRMED", created_date := 10, created_time := 9,
         updated_date := 10, updated_time := 9 },
       { id := 3, bill_no := 9, customer_name := "", total_amount := 0, items := [],
         status := "CONFIRMED", created_date := 9, created_time := 4,
         updated_date := 9, updated_time := 4 }]
    settings := [], next_id := 4, today := 10, now_time := 60 }

theorem createBill_next_number_witness :
    (c1db.create_bill { customer_name := "", total_amount := 0, items := [] }).1 = 8 :=
  ((createBill_next_number c1db
      { customer_name := "", total_amount := 0, items := [] }).2.1 (by decide)).2 7
    (by decide)

/-! ### C2 — bills return the creation-time snapshot -/

theorem create_bill_today (db : SqliteDB) (bd : BillData) :
    (db.create_bill bd).2.today = db.today := rfl

theorem create_bill_bills (db : SqliteDB) (bd : BillData) :
    (db.create_bill bd).2.bills = db.bills ++
      [{ id := db.next_id, bill_no := (db.create_bill bd).1,
         customer_name := bd.customer_name, total_amount := bd.total_amount,
         items := bd.items.map (enrichItem db.get_product), status := "CONFIRMED",
         created_date := db.today, created_time := db.now_time,
         updated_date := db.today, updated_time := db.now_time }] := rfl

/-- The assigned number strictly exceeds the number of every bill already
created today (in either numbering mode). -/
theorem create_bill_no_gt_today (db : SqliteDB) (bd : BillData) :
    ∀ b ∈ db.bills, b.created_date = db.today → b.bill_no < (db.create_bill bd).1 := by
  intro b hb hd
  have hmem : b ∈ db.todaysBillRows := by
    simp [SqliteDB.todaysBillRows, List.mem_filter, hb, hd]
  show b.bill_no <
    (if db.billResetDaily then (maxBillNo db.todaysBillRows).getD 0 + 1
     else (maxBillNo db.bills).getD 0 + 1)
  split
  · rcases hm : maxBillNo db.todaysBillRows with _ | m
    · rw [(maxBillNo_eq_none _).mp hm] at hmem
      simp at hmem
    · have h := maxBillNo_le _ m hm b hmem
      simp only [hm, Option.getD_some]
      omega
  · rcases hm : maxBillNo db.bills with _ | m
    · rw [(maxBillNo_eq_none _).mp hm] at hb
      simp at hb
    · have h := maxBillNo_le _ m hm b hb
      simp only [hm, Option.getD_some]
      omega

/-- A sequence of `update_product` calls (renames, reprices, …). -/
def updateProducts (db : SqliteDB) (us : List (String × ProductUpdate)) : SqliteDB :=
  us.foldl (fun d u => (d.update_product u.1 u.2).2) db

theorem update_product_frame (db : SqliteDB) (pid : String) (u : ProductUpdate) :
    (db.update_product pid u).2.bills = db.bills
    ∧ (db.update_product pid u).2.today = db.today := by
  unfold SqliteDB.update_product
  split <;> exact ⟨rfl, rfl⟩

theorem updateProducts_frame (db : SqliteDB) (us : List (String × ProductUpdate)) :
    (updateProducts db us).bills = db.bills
    ∧ (updateProducts db us).today = db.today := by
  induction us generalizing db with
  | nil => exact ⟨rfl, rfl⟩
  | cons u t ih =>
    have h := update_product_frame db u.1 u.2
    have h2 := ih (db.update_product u.1 u.2).2
    exact ⟨h2.1.trans h.1, h2.2.trans h.2⟩

/-- C2: the items list `get_bill` returns for a created bill is the snapshot
stored at creation time — after any sequence of later product updates
(renames, reprices, …) `get_bill` still returns the names and prices enriched
against the catalog as it was when the bill was created; items are never
re-derived from the live product rows. -/
theorem getBill_snapshot (db : SqliteDB) (bd : BillData)
    (us : List (String × ProductUpdate)) :
    ((updateProducts (db.create_bill bd).2 us).get_bill (db.create_bill bd).1).map
        Bill.items
      = some (bd.items.map (enrichItem db.get_product)) := by
  have ht2 : (updateProducts (db.create_bill bd).2 us).today = db.today :=
    (updateProducts_frame _ _).2.trans (create_bill_today db bd)
  unfold SqliteDB.get_bill
  simp only [ht2, (updateProducts_frame (db.create_bill bd).2 us).1, create_bill_bills]
  rw [find?_append_last]
  · rw [if_pos (by simp)]
    rfl
  · intro y hy
    by_cases hd : y.created_date = db.today
    · have hlt := create_bill_no_gt_today db bd y hy hd
      simp only [decide_eq_false_iff_not, not_and]
      exact fun h1 _ => absurd h1 (ne_of_lt hlt)
    · simp only [decide_eq_false_iff_not, not_and]
      exact fun _ => hd

/-! ### C3 — inventory deduction on bill creation -/

theorem create_bill_inventory (st : OrmDB) (bd : BillData) :
    (st.create_bill bd false).2.inventory
      = bd.items.foldl (fun acc it => deductFirst it.product_id it.quantity acc)
          st.inventory := rfl

theorem foldl_deduct_no_match (its : List BillItemInput) (inv : List InventoryItem)
    (h : ∀ it ∈ its, ∀ j ∈ inv, j.product_id ≠ some it.product_id) :
    its.foldl (fun acc it => deductFirst it.product_id it.quantity acc) inv = inv := by
  induction its with
  | nil => rfl
  | cons a t ih =>
    have h1 : deductFirst a.product_id a.quantity inv = inv :=
      deductFirst_no_match _ _ _ (fun j hj => h a (List.mem_cons_self a t) j hj)
    simp only [List.foldl_cons, h1]
    exact ih (fun it hit j hj => h it (List.mem_cons_of_mem a hit) j hj)

/-- Fixture for the C3 counterexample: the running system with product `A1`
(price 10) in the billing store and a linked inventory row with stock 50 in
the SQLAlchemy store. -/
def c3sys : System :=
  { sq := { products := [{ product_id := "A1", name := "Widget", price := 10,
                           category_id := none, category := none, active := true }]
            categories := [], bills := [], settings := [], next_id := 1,
            today := 20, now_time := 0 }
    orm := { products := [{ product_id := "A1", name := "Widget", price := 10,
                            category_id := none, category := none, active := true }]
             categories := [], bills := [], settings := []
             inventory := [{ id := 1, name := "Widget", type := "DIRECT_SALE",
                             unit := "piece", stock := 50, unit_price := 0,
                             alert_threshold := 3, max_stock_history := 50,
                             product_id := some "A1" }]
             next_bill_id := 1, today := 20, now_time := 0 } }

/-- Fixture for the C3 counterexample: a bill request for 3 units of `A1`. -/
def c3req : BillRequest :=
  { products := [{ product_id := "A1", quantity := 3 }], customer_name := "" }

/-- C3 counterexample: through the deployed billing route (which is backed by
`SQLiteDatabaseService.create_bill`) a bill for product `A1` with quantity 3
is created and persisted with status CONFIRMED, yet the inventory row linked
to `A1` still has stock 50, not 47: this `create_bill` performs no inventory
deduction at all. -/
theorem createBill_no_deduction_counterexample :
    ((c3sys.create_bill_route c3req).2.sq.bills.map
        (fun b => (b.bill_no, b.status,
          b.items.map (fun it => (it.product_id, it.quantity)))))
      = [(1, "CONFIRMED", [("A1", 3)])]
    ∧ ((c3sys.create_bill_route c3req).2.orm.inventory.map (fun i => i.stock))
      = [50] := by
  decide

/-- C3 (amended): `DatabaseService.create_bill` deducts item-by-item — for a
bill with a single item of quantity `qty` on a product whose linked inventory
row is `i`, the stock of `i` becomes `i.stock - qty` (the first linked row,
others untouched), and a bill whose items have no linked inventory row leaves
the inventory unchanged.  (`SQLiteDatabaseService.create_bill`, used by the
billing route, performs no deduction — see the counterexample.) -/
theorem createBill_inventory_deduction (st : OrmDB) (pid : String)
    (price amt : Rat) (qty : Int) (cust : String)
    (pre post : List InventoryItem) (i : InventoryItem)
    (hsplit : st.inventory = pre ++ i :: post)
    (hpre : ∀ j ∈ pre, j.product_id ≠ some pid)
    (hi : i.product_id = some pid) :
    ((st.create_bill { customer_name := cust, total_amount := amt,
                       items := [{ product_id := pid, price := price,
                                   quantity := qty }] }
        false).2.inventory
      = pre ++ { i with stock := i.stock - qty } :: post)
    ∧ ∀ bd : BillData,
        (∀ it ∈ bd.items, ∀ j ∈ st.inventory, j.product_id ≠ some it.product_id) →
        (st.create_bill bd false).2.inventory = st.inventory := by
  constructor
  · rw [create_bill_inventory]
    simp only [List.foldl_cons, List.foldl_nil]
    rw [hsplit]
    exact deductFirst_append pid qty pre i post hpre hi
  · intro bd hnone
    rw [create_bill_inventory]
    exact foldl_deduct_no_match bd.items st.inventory hnone

/-- Fixture for the C3 witness. -/
def c3wInv : InventoryItem :=
  { id := 1, name := "W", type := "DIRECT_SALE", unit := "piece", stock := 50,
    unit_price := 0, alert_threshold := 3, max_stock_history := 50,
    product_id := some "A1" }

/-- Fixture for the C3 witness. -/
def c3wSt : OrmDB :=
  { products := [], categories := [], bills := [], settings := [],
    inventory := [c3wInv], next_bill_id := 1, today := 20, now_time := 0 }

theorem createBill_inventory_deduction_witness :
    (c3wSt.create_bill { customer_name := "", total_amount := 150,
                         items := [{ product_id := "A1", price := 50,
                                     quantity := 3 }] }
        false).2.inventory
      = [] ++ { c3wInv with stock := c3wInv.stock - (3 : Int) } :: [] :=
  (createBill_inventory_deduction c3wSt "A1" 50 150 3 "" [] [] c3wInv rfl
    (by simp) rfl).1

/-! ### C4 — locked inventory rows -/

/-- C4: for a locked inventory row (type `DIRECT_SALE`, truthy linked
`product_id`, linked product present and inactive) the direct adjust and
update mutations are rejected — with the distinct `locked` (409) response at
the route layer, and with `False` at the service layer — and the state is
untouched; yet the deduction performed inside `DatabaseService.create_bill`
on the very same row still succeeds, reducing its stock by the sold
quantity (no lock check on the bill-creation path). -/
theorem locked_inventory_reject_deduct (st : OrmDB) (iid : Nat) (i : InventoryItem)
    (pid : String) (p : Product) (adj : Rat) (u : InventoryUpdate)
    (hiid : iid ≠ 0)
    (hfind : st.inventory.find? (fun j => j.id = iid) = some i)
    (htype : i.type = "DIRECT_SALE")
    (hpid : i.product_id = some pid) (hpne : pid ≠ "")
    (hp : st.products.find? (fun q => q.product_id = pid) = some p)
    (hinactive : p.active = false) :
    route_adjust_stock st (some iid) adj = (InvResponse.locked, st)
    ∧ route_update_inventory st iid u = (InvResponse.locked, st)
    ∧ st.adjust_inventory_stock iid adj = (false, st)
    ∧ st.update_inventory iid u = (false, st)
    ∧ ∀ (pre post : List InventoryItem) (qty : Int) (price amt : Rat) (cust : String),
        st.inventory = pre ++ i :: post →
        (∀ j ∈ pre, j.product_id ≠ some pid) →
        (st.create_bill { customer_name := cust, total_amount := amt,
                          items := [{ product_id := pid, price := price,
                                      quantity := qty }] }
          false).2.inventory = pre ++ { i with stock := i.stock - qty } :: post := by
  have hlocked : st.invLocked i = true := by
    simp [OrmDB.invLocked, htype, hpid, hp, hpne, hinactive]
  have hgi : ∃ v, st.get_inventory_item iid = some v ∧ v.is_locked = true := by
    unfold OrmDB.get_inventory_item
    rw [hfind]
    exact ⟨_, rfl, by simp [htype, hpid, hp, hpne, hinactive]⟩
  obtain ⟨v, hgiv, hlockv⟩ := hgi
  refine ⟨?_, ?_, ?_, ?_, ?_⟩
  · simp [route_adjust_stock, hgiv, hlockv, hiid]
  · simp [route_update_inventory, hgiv, hlockv]
  · simp [OrmDB.adjust_inventory_stock, hfind, hlocked]
  · simp [OrmDB.update_inventory, hfind, hlocked]
  · intro pre post qty price amt cust hsplit hpre
    rw [create_bill_inventory]
    simp only [List.foldl_cons, List.foldl_nil]
    rw [hsplit]
    exact deductFirst_append pid qty pre i post hpre hpid

/-- Fixture for the C4 witness: an inactive `DIRECT_SALE` product with a
linked inventory row. -/
def c4prod : Product :=
  { product_id := "A1", name := "W", price := 10, category_id := none,
    category := none, active := false }

/-- Fixture for the C4 witness. -/
def c4inv : InventoryItem :=
  { id := 1, name := "W", type := "DIRECT_SALE", unit := "piece", stock := 50,
    unit_price := 0, alert_threshold := 3, max_stock_history := 50,
    product_id := some "A1" }

/-- Fixture for the C4 witness. -/
def c4st : OrmDB :=
  { products := [c4prod], categories := [], bills := [], settings := [],
    inventory := [c4inv], next_bill_id := 1, today := 0, now_time := 0 }

/-- Fixture for the C4 witness: a stock overwrite attempt. -/
def c4upd : InventoryUpdate :=
  { name := none, type := none, unit := none, stock := some 60,
    unit_price := none, alert_threshold := none, product_id := none }

theorem locked_inventory_reject_deduct_witness :
    route_adjust_stock c4st (some 1) 5 = (InvResponse.locked, c4st)
    ∧ route_update_inventory c4st 1 c4upd = (InvResponse.locked, c4st)
    ∧ c4st.adjust_inventory_stock 1 5 = (false, c4st)
    ∧ c4st.update_inventory 1 c4upd = (false, c4st)
    ∧ (c4st.create_bill { customer_name := "", total_amount := 30,
                          items := [{ product_id := "A1", price := 10,
                                      quantity := 3 }] }
        false).2.inventory
        = [] ++ { c4inv with stock := c4inv.stock - (3 : Int) } :: [] := by
  obtain ⟨h1, h2, h3, h4, h5⟩ :=
    locked_inventory_reject_deduct c4st 1 c4inv "A1" c4prod 5 c4upd (by decide)
      (by decide) (by decide) (by decide) (by decide) (by decide) (by decide)
  exact ⟨h1, h2, h3, h4, h5 [] [] 3 10 30 "" rfl (by simp)⟩

/-! ### C5 — category deletion safety -/

/-- C5 (amended): on the deletion route (backed by
`DatabaseService.is_category_used`) a category's usage is decided solely by
the products currently linked via `category_id` — the historical-bill scan
(present only in `SQLiteDatabaseService.is_category_used`) is skipped.  A
category with at least one linked product reports `used=true` with a reason
string and is deactivated; a category with zero linked products reports
`used=false` and is hard-deleted, even when its products appear in historical
bill snapshots (see the counterexample). -/
theorem category_delete_route_behavior (st : OrmDB) (cid : Nat) (c : Category)
    (hc : st.categories.find? (fun x => x.id = cid) = some c) :
    ((st.products.filter (fun p => p.category_id = some cid)).length = 0 →
        (st.is_category_used cid).used = false
        ∧ route_delete_category st cid
            = (CategoryDeleteResponse.removed,
               { st with categories := removeFirst (fun x => x.id = cid) st.categories }))
    ∧ (0 < (st.products.filter (fun p => p.category_id = some cid)).length →
        (st.is_category_used cid).used = true
        ∧ (st.is_category_used cid).reason
            = "linked to "
              ++ toString (st.products.filter (fun p => p.category_id = some cid)).length
              ++ " product(s)"
        ∧ route_delete_category st cid
            = (CategoryDeleteResponse.deactivated (st.is_category_used cid).reason,
               { st with categories :=
                  (updateFirst (fun x => x.id = cid)
                    (fun x => { x with active := false }) st.categories) })) := by
  have husage0 : (st.products.filter (fun p => p.category_id = some cid)).length = 0 →
      st.is_category_used cid = { used := false, reason := "No usage found" } := by
    intro h0
    unfold OrmDB.is_category_used
    rw [hc]
    simp [h0]
  have husage1 : 0 < (st.products.filter (fun p => p.category_id = some cid)).length →
      st.is_category_used cid =
        { used := true,
          reason := "linked to "
            ++ toString (st.products.filter (fun p => p.category_id = some cid)).length
            ++ " product(s)" } := by
    intro h1
    unfold OrmDB.is_category_used
    rw [hc]
    simp [Nat.pos_iff_ne_zero.mp h1]
  constructor
  · intro h0
    refine ⟨by rw [husage0 h0], ?_⟩
    unfold route_delete_category
    rw [husage0 h0]
    simp only [Bool.false_eq_true, if_false]
    unfold OrmDB.delete_category
    rw [hc]
    rfl
  · intro h1
    refine ⟨by rw [husage1 h1], by rw [husage1 h1], ?_⟩
    unfold route_delete_category
    rw [husage1 h1]
    simp only [if_true]
    unfold OrmDB.update_category
    rw [hc]
    rfl

/-- Fixture for the C5 counterexample: category `drinks` (id 1), a product
`A1` that belonged to it (legacy `category` text) but no longer references it
via `category_id`, and a historical bill whose snapshot contains `A1`. -/
def c5st : OrmDB :=
  { products := [{ product_id := "A1", name := "Cola", price := 25,
                   category_id := none, category := some "drinks", active := true }]
    categories := [{ id := 1, name := "drinks", description := "", active := true }]
    bills := [{ id := 1, bill_no := 1, customer_name := "", total_amount := 25,
                items := [{ product_id := "A1", name := "Cola", price := 25,
                            quantity := 1 }],
                status := "CONFIRMED", created_date := 3, created_time := 10,
                updated_date := 3, updated_time := 10 }]
    settings := [], inventory := [], next_bill_id := 2, today := 5, now_time := 0 }

/-- C5 counterexample: category 1 has a historical bill reference (product
`A1`, which belonged to `drinks`, appears in a stored bill snapshot), yet the
deletion route reports `used=false` and hard-deletes the category instead of
deactivating it: the historical-bill scan is skipped on this path. -/
theorem category_hard_delete_counterexample :
    (c5st.bills.map (fun b => b.items.map (fun it => it.product_id))) = [["A1"]]
    ∧ (c5st.products.map (fun p => (p.product_id, p.category, p.category_id)))
        = [("A1", some "drinks", none)]
    ∧ (c5st.categories.map (fun c => (c.id, c.name))) = [(1, "drinks")]
    ∧ c5st.is_category_used 1 = { used := false, reason := "No usage found" }
    ∧ route_delete_category c5st 1
        = (CategoryDeleteResponse.removed, { c5st with categories := [] }) := by
  decide

/-- Fixture for the C5 witness: category 1 with one currently linked
product. -/
def c5wSt : OrmDB :=
  { products := [{ product_id := "B1", name := "Tea", price := 5,
                   category_id := some 1, category := none, active := true }]
    categories := [{ id := 1, name := "hot", description := "", active := true }]
    bills := [], settings := [], inventory := [], next_bill_id := 1,
    today := 0, now_time := 0 }

theorem category_delete_route_behavior_witness :
    (c5wSt.is_category_used 1).used = true
    ∧ route_delete_category c5wSt 1
        = (CategoryDeleteResponse.deactivated (c5wSt.is_category_used 1).reason,
           { c5wSt with categories :=
              (updateFirst (fun x => x.id = 1)
                (fun x => { x with active := false }) c5wSt.categories) }) := by
  obtain ⟨-, h2⟩ := category_delete_route_behavior c5wSt 1
    { id := 1, name := "hot", description := "", active := true } (by decide)
  obtain ⟨hu, -, hr⟩ := h2 (by decide)
  exact ⟨hu, hr⟩

/-! ### C6 — cancelled bills are excluded everywhere except management -/

/-- C6: a bill whose status is CANCELLED never appears in `get_todays_bills`
nor in `get_bills_by_date_range` (any range), is excluded from both bill
sources the summary aggregator reads (`get_todays_bills` / `get_all_bills` of
the SQLAlchemy store, hence from every summary total computed over them), but
is still returned by the management accessor that lists all bills including
cancelled ones. -/
theorem cancelled_bill_excluded (sq : SqliteDB) (st : OrmDB) (b : Bill)
    (hst : b.status = "CANCELLED") :
    (b ∈ sq.bills →
        b ∉ sq.get_todays_bills
        ∧ (∀ s e, b ∉ sq.get_bills_by_date_range s e)
        ∧ b ∈ sq.get_all_bills_management)
    ∧ (b ∈ st.bills →
        b ∉ st.get_todays_bills ∧ b ∉ st.get_all_bills) := by
  have htr : trimStr b.status = "CANCELLED" := by rw [hst]; exact trim_cancelled
  refine ⟨fun hmem => ⟨?_, fun s e => ?_, ?_⟩, fun hmem => ⟨?_, ?_⟩⟩
  · simp [SqliteDB.get_todays_bills, mem_sortBy, List.mem_filter, htr]
  · simp [SqliteDB.get_bills_by_date_range, mem_sortBy, List.mem_filter, htr]
  · simp [SqliteDB.get_all_bills_management, mem_sortBy, hmem]
  · simp [OrmDB.get_todays_bills, mem_sortBy, List.mem_filter, htr]
  · simp [OrmDB.get_all_bills, mem_sortBy, List.mem_filter, htr]

/-- Fixture for the C6 witness: a cancelled bill created today. -/
def c6bill : Bill :=
  { id := 1, bill_no := 2, customer_name := "", total_amount := 10, items := [],
    status := "CANCELLED", created_date := 4, created_time := 7,
    updated_date := 4, updated_time := 8 }

/-- Fixture for the C6 witness. -/
def c6sq : SqliteDB :=
  { products := [], categories := [], bills := [c6bill], settings := [],
    next_id := 2, today := 4, now_time := 9 }

/-- Fixture for the C6 witness. -/
def c6orm : OrmDB :=
  { products := [], categories := [], bills := [c6bill], settings := [],
    inventory := [], next_bill_id := 2, today := 4, now_time := 9 }

theorem cancelled_bill_excluded_witness :
    c6bill ∉ c6sq.get_todays_bills
    ∧ c6bill ∉ c6sq.get_bills_by_date_range 0 9
    ∧ c6bill ∈ c6sq.get_all_bills_management
    ∧ c6bill ∉ c6orm.get_todays_bills
    ∧ c6bill ∉ c6orm.get_all_bills := by
  obtain ⟨h1, h2⟩ := cancelled_bill_excluded c6sq c6orm c6bill rfl
  obtain ⟨ha, hb, hc⟩ := h1 (by decide)
  obtain ⟨hd, he⟩ := h2 (by decide)
  exact ⟨ha, hb 0 9, hc, hd, he⟩

/-! ### C7 — cancelling a bill changes only its status and update time -/

theorem find?_middle {α : Type} (p : α → Bool) (pre : List α) (b : α) (post : List α)
    (hpre : ∀ x ∈ pre, p x = false) (hb : p b = true) :
    List.find? p (pre ++ b :: post) = some b := by
  induction pre with
  | nil => simp [List.find?, hb]
  | cons a t ih =>
    have ha : p a = false := hpre a (List.mem_cons_self a t)
    simp only [List.cons_append, List.find?, ha]
    exact ih (fun x hx => hpre x (List.mem_cons_of_mem a hx))

/-- C7 (amended): `DatabaseService.cancel_bill` locates the first bill with
the given number created today, sets its status to CANCELLED and refreshes
`updated_at`, and changes nothing else: the surrounding bills, the bill's
remaining fields (`bill_no`, `items`, `total_amount`, `created_at`) and every
other table — in particular every inventory row's stock, so the creation-time
deduction is never reversed — are untouched.
(`SQLiteDatabaseService.cancel_bill`, which the billing route uses, applies
the same status update but to every bill with that number regardless of
creation date — see the counterexample.) -/
theorem cancelBill_today_status_only (st : OrmDB) (n : Int) (pre post : List Bill)
    (b : Bill)
    (hsplit : st.bills = pre ++ b :: post)
    (hpre : ∀ x ∈ pre, ¬(x.bill_no = n ∧ x.created_date = st.today))
    (hb : b.bill_no = n) (hd : b.created_date = st.today) :
    st.cancel_bill n =
      (true,
       { st with bills := pre ++
          { b with status := "CANCELLED", updated_date := st.today,
                   updated_time := st.now_time } :: post })
    ∧ (st.cancel_bill n).2.inventory = st.inventory := by
  have hfind : st.bills.find? (fun x => x.bill_no = n ∧ x.created_date = st.today)
      = some b := by
    rw [hsplit]
    exact find?_middle _ pre b post (fun x hx => decide_eq_false (hpre x hx))
      (by simp [hb, hd])
  have h1 : st.cancel_bill n =
      (true,
       { st with bills := pre ++
          { b with status := "CANCELLED", updated_date := st.today,
                   updated_time := st.now_time } :: post }) := by
    unfold OrmDB.cancel_bill
    rw [hfind, hsplit,
      updateFirst_append _ _ pre b post (fun x hx => decide_eq_false (hpre x hx))
        (by simp [hb, hd])]
  exact ⟨h1, by rw [h1]⟩

/-- Fixture for the C7 counterexample: two CONFIRMED bills numbered 5, one
created yesterday (day 0) and one today (day 1). -/
def c7sq : SqliteDB :=
  { products := [], categories := []
    bills := [{ id := 1, bill_no := 5, customer_name := "", total_amount := 10,
                items := [], status := "CONFIRMED", created_date := 0,
                created_time := 5, updated_date := 0, updated_time := 5 },
              { id := 2, bill_no := 5, customer_name := "", total_amount := 20,
                items := [], status := "CONFIRMED", created_date := 1,
                created_time := 6, updated_date := 1, updated_time := 6 }]
    settings := [], next_id := 3, today := 1, now_time := 50 }

/-- C7 counterexample: `SQLiteDatabaseService.cancel_bill 5` (the billing
route's implementation) does not locate only today's bill — it also flips
yesterday's bill with the same number to CANCELLED. -/
theorem cancelBill_cancels_other_days_counterexample :
    c7sq.today = 1
    ∧ (c7sq.bills.map (fun b => (b.bill_no, b.created_date, b.status)))
        = [(5, 0, "CONFIRMED"), (5, 1, "CONFIRMED")]
    ∧ ((c7sq.cancel_bill 5).2.bills.map
        (fun b => (b.bill_no, b.created_date, b.status)))
        = [(5, 0, "CANCELLED"), (5, 1, "CANCELLED")] := by
  decide

/-- Fixture for the C7 witness. -/
def c7wBill : Bill :=
  { id := 1, bill_no := 4, customer_name := "", total_amount := 10, items := [],
    status := "CONFIRMED", created_date := 2, created_time := 30,
    updated_date := 2, updated_time := 30 }

/-- Fixture for the C7 witness: one bill today plus an inventory row. -/
def c7wSt : OrmDB :=
  { products := [], categories := [], bills := [c7wBill], settings := []
    inventory := [{ id := 1, name := "W", type := "RAW_MATERIAL", unit := "kg",
                    stock := 7, unit_price := 0, alert_threshold := 1,
                    max_stock_history := 10, product_id := none }]
    next_bill_id := 2, today := 2, now_time := 99 }

theorem cancelBill_today_status_only_witness :
    c7wSt.cancel_bill 4 =
      (true,
       { c7wSt with bills := [] ++
          { c7wBill with status := "CANCELLED", updated_date := 2,
                         updated_time := 99 } :: [] })
    ∧ (c7wSt.cancel_bill 4).2.inventory = c7wSt.inventory := by
  obtain ⟨h1, h2⟩ := cancelBill_today_status_only c7wSt 4 [] [] c7wBill rfl
    (by simp) rfl rfl
  exact ⟨h1, h2⟩

/-! ### C8 — createBill validation happens before any mutation -/

theorem validateItems_ok_all (rows : List ProductRow) (its : List RawItem)
    (r : List Item × Rat) (h : validateItems rows its = .ok r) :
    ∀ it ∈ its, 0 < it.quantity
      ∧ (rows.find? (fun p => p.product_id = it.product_id)).isSome := by
  induction its generalizing r with
  | nil => simp
  | cons a t ih =>
    intro it hit
    unfold validateItems at h
    by_cases hq : a.quantity ≤ 0
    · rw [if_pos hq] at h
      exact absurd h (by simp)
    · rw [if_neg hq] at h
      rcases hf : rows.find? (fun p => p.product_id = a.product_id) with _ | p <;>
        rw [hf] at h
      · simp at h
      · rcases hv : validateItems rows t with e | r2 <;> rw [hv] at h
        · simp at h
        · obtain ⟨items, total⟩ := r2
          rcases List.mem_cons.mp hit with rfl | hit2
          · exact ⟨by omega, by rw [hf]; rfl⟩
          · exact ih (items, total) hv it hit2

theorem validateItems_error_shape (rows : List ProductRow) (its : List RawItem)
    (e : BillResponse) (h : validateItems rows its = .error e) :
    (∃ m, e = .badRequest m) ∨ (∃ m, e = .notFound m) := by
  induction its generalizing e with
  | nil => simp [validateItems] at h
  | cons a t ih =>
    unfold validateItems at h
    by_cases hq : a.quantity ≤ 0
    · rw [if_pos hq] at h
      simp only [Except.error.injEq] at h
      exact Or.inl ⟨_, h.symm⟩
    · rw [if_neg hq] at h
      rcases hf : rows.find? (fun p => p.product_id = a.product_id) with _ | p <;>
        rw [hf] at h
      · simp only [Except.error.injEq] at h
        exact Or.inr ⟨_, h.symm⟩
      · rcases hv : validateItems rows t with e2 | r2 <;> rw [hv] at h
        · simp only [Except.error.injEq] at h
          exact h ▸ ih e2 hv
        · obtain ⟨items, total⟩ := r2
          simp at h

/-- C8: the create-bill handler rejects — before calling the store, hence
with no bill persisted and no other state change — every request whose item
list is empty, that contains an item with quantity ≤ 0, or that contains a
`product_id` that does not resolve in the catalog (the active-product rows of
`get_all_products`): the response is never `created` and the database is
returned unchanged. -/
theorem createBill_rejects_invalid (db : SqliteDB) (req : BillRequest)
    (h : req.products = []
       ∨ (∃ it ∈ req.products, it.quantity ≤ 0)
       ∨ (∃ it ∈ req.products,
            ∀ row ∈ db.get_all_products, row.product_id ≠ it.product_id)) :
    (∀ n t, (route_create_bill db req).1 ≠ BillResponse.created n t)
    ∧ (route_create_bill db req).2 = db := by
  by_cases hempty : req.products = []
  · constructor
    · intro n t
      simp [route_create_bill, hempty]
    · simp [route_create_bill, hempty]
  · have herr : ∃ e, validateItems db.get_all_products req.products = .error e := by
      rcases hv : validateItems db.get_all_products req.products with e | r
      · exact ⟨e, rfl⟩
      · exfalso
        have hall := validateItems_ok_all _ _ r hv
        rcases h with h | ⟨it, hit, hq⟩ | ⟨it, hit, hnr⟩
        · exact hempty h
        · have := (hall it hit).1
          omega
        · have hs := (hall it hit).2
          rcases hsf : db.get_all_products.find?
              (fun p => p.product_id = it.product_id) with _ | p
          · rw [hsf] at hs
            simp at hs
          · have hp := List.find?_some hsf
            have hpm := List.mem_of_find?_eq_some hsf
            simp only [decide_eq_true_eq] at hp
            exact hnr p hpm hp
    obtain ⟨e, he⟩ := herr
    constructor
    · intro n t
      have hfst : (route_create_bill db req).1 = e := by
        simp [route_create_bill, hempty, he]
      rw [hfst]
      rcases validateItems_error_shape _ _ e he with ⟨m, rfl⟩ | ⟨m, rfl⟩ <;> simp
    · simp [route_create_bill, hempty, he]

/-- Fixture for the C8 witness. -/
def c8db : SqliteDB :=
  { products := [{ product_id := "A1", name := "W", price := 10,
                   category_id := none, category := none, active := true }]
    categories := [], bills := [], settings := [], next_id := 1,
    today := 0, now_time := 0 }

/-- Fixture for the C8 witness: a request with a zero quantity. -/
def c8req : BillRequest :=
  { products := [{ product_id := "A1", quantity := 0 }], customer_name := "" }

theorem createBill_rejects_invalid_witness :
    (route_create_bill c8db c8req).1 ≠ BillResponse.created 1 0
    ∧ (route_create_bill c8db c8req).2 = c8db := by
  obtain ⟨h1, h2⟩ := createBill_rejects_invalid c8db c8req (Or.inr (Or.inl (by decide)))
  exact ⟨h1 1 0, h2⟩

/-! ### C9 — summaries over an empty scope -/

theorem maxDate_eq_none (bs : List Bill) : maxDate bs = none ↔ bs = [] := by
  cases bs with
  | nil => simp [maxDate]
  | cons b l =>
    simp only [maxDate]
    cases maxDate l <;> simp

theorem maxDate_mem (bs : List Bill) (m : Nat) (h : maxDate bs = some m) :
    ∃ b ∈ bs, b.created_date = m := by
  induction bs generalizing m with
  | nil => simp [maxDate] at h
  | cons a l ih =>
    simp only [maxDate] at h
    rcases hl : maxDate l with _ | m0 <;> rw [hl] at h <;>
      simp only [Option.some.injEq] at h
    · exact ⟨a, List.mem_cons_self a l, h⟩
    · rcases max_cases a.created_date m0 with ⟨hmax, _⟩ | ⟨hmax, _⟩
      · exact ⟨a, List.mem_cons_self a l, by rw [← h, hmax]⟩
      · rcases ih m0 hl with ⟨b, hb, hbm⟩
        exact ⟨b, List.mem_cons_of_mem a hb, by rw [← h, hmax, hbm]⟩

/-- C9 (amended): `get_summary_for_date` returns the degenerate result (all
numeric fields zero, time fields null) whenever the requested date carries no
non-cancelled bill, and `get_today_summary` returns it when no non-cancelled
bill exists at all; but when today is empty while earlier non-cancelled bills
exist, `get_today_summary` does NOT return zeros — it falls back to the most
recent date with bills and reports that day's (non-empty) summary. -/
theorem summary_empty_scope (st : OrmDB) (d : Nat) :
    ((∀ b ∈ st.bills, b.created_date = d → trimStr b.status = "CANCELLED") →
        get_summary_for_date st d = zeroSummary d)
    ∧ ((∀ b ∈ st.bills, trimStr b.status = "CANCELLED") →
        get_today_summary st = zeroSummary st.today)
    ∧ ((∀ b ∈ st.bills, b.created_date = st.today → trimStr b.status = "CANCELLED") →
        (∃ b ∈ st.bills, trimStr b.status ≠ "CANCELLED") →
        ∀ mrd, maxDate st.get_all_bills = some mrd →
          get_today_summary st
            = summaryOf st mrd
                (st.get_all_bills.filter (fun b => b.created_date = mrd))
          ∧ 0 < (get_today_summary st).total_bills) := by
  refine ⟨fun h => ?_, fun h => ?_, fun ht hex mrd hmrd => ?_⟩
  · have hnil : st.get_all_bills.filter (fun b => b.created_date = d) = [] := by
      rw [List.filter_eq_nil_iff]
      intro b hb
      obtain ⟨hb1, hb2⟩ := List.mem_filter.mp ((mem_sortBy _ b _).mp hb)
      simp only [decide_eq_true_eq] at hb2 ⊢
      exact fun hd => hb2 (by simp [h b hb1 hd])
    unfold get_summary_for_date
    rw [hnil]
    rfl
  · have hall : st.get_all_bills = [] := by
      unfold OrmDB.get_all_bills
      have hnil : st.bills.filter (fun b => trimStr b.status ≠ "CANCELLED") = [] := by
        rw [List.filter_eq_nil_iff]
        intro b hb
        simp [h b hb]
      rw [hnil]
      rfl
    have h0 : st.get_todays_bills = [] := by
      unfold OrmDB.get_todays_bills
      have hnil : st.bills.filter
          (fun b => b.created_date = st.today ∧ trimStr b.status ≠ "CANCELLED") = [] := by
        rw [List.filter_eq_nil_iff]
        intro b hb
        simp [h b hb]
      rw [hnil]
      rfl
    have htf : todayFallback st = ([], st.today) := by
      unfold todayFallback
      rw [if_pos h0, hall]
      rfl
    unfold get_today_summary
    rw [htf]
    rfl
  · have h0 : st.get_todays_bills = [] := by
      unfold OrmDB.get_todays_bills
      have hnil : st.bills.filter
          (fun b => b.created_date = st.today ∧ trimStr b.status ≠ "CANCELLED") = [] := by
        rw [List.filter_eq_nil_iff]
        intro b hb
        simp only [decide_eq_true_eq, not_and]
        exact fun hd => by simp [ht b hb hd]
      rw [hnil]
      rfl
    have hne : st.get_all_bills.filter (fun b => b.created_date = mrd) ≠ [] := by
      obtain ⟨b, hb, hbd⟩ := maxDate_mem _ mrd hmrd
      intro hcon
      have := List.filter_eq_nil_iff.mp hcon b hb
      simp [hbd] at this
    have htf : todayFallback st
        = (st.get_all_bills.filter (fun b => b.created_date = mrd), mrd) := by
      unfold todayFallback
      rw [if_pos h0, hmrd]
    constructor
    · unfold get_today_summary
      rw [htf, if_neg hne]
    · unfold get_today_summary
      rw [htf, if_neg hne]
      exact List.length_pos.mpr hne

/-- Fixture for the C9 counterexample: one CONFIRMED bill yesterday (day 0)
worth 100, nothing today (day 1). -/
def c9st : OrmDB :=
  { products := [], categories := []
    bills := [{ id := 1, bill_no := 1, customer_name := "", total_amount := 100,
                items := [], status := "CONFIRMED", created_date := 0,
                created_time := 3, updated_date := 0, updated_time := 3 }]
    settings := [], inventory := [], next_bill_id := 2, today := 1, now_time := 0 }

/-- C9 counterexample: today (day 1) carries no bills, yet the today-summary
is not the all-zero result: it reports yesterday's data (date 0, one bill,
a non-null first-bill time) instead of zeros and nulls. -/
theorem today_summary_fallback_counterexample :
    c9st.get_todays_bills = []
    ∧ (get_today_summary c9st).total_bills = 1
    ∧ (get_today_summary c9st).date = 0
    ∧ (get_today_summary c9st).first_bill_time = some 3 := by
  decide

/-- Fixture for the C9 witness: a single cancelled bill on day 5. -/
def c9wSt : OrmDB :=
  { products := [], categories := []
    bills := [{ id := 1, bill_no := 1, customer_name := "", total_amount := 30,
                items := [], status := "CANCELLED", created_date := 5,
                created_time := 2, updated_date := 5, updated_time := 2 }]
    settings := [], inventory := [], next_bill_id := 2, today := 5, now_time := 0 }

theorem summary_empty_scope_witness :
    get_summary_for_date c9wSt 5 = zeroSummary 5
    ∧ get_today_summary c9wSt = zeroSummary 5
    ∧ 0 < (get_today_summary c9st).total_bills := by
  obtain ⟨h1, h2, -⟩ := summary_empty_scope c9wSt 5
  obtain ⟨-, -, h3⟩ := summary_empty_scope c9st 0
  exact ⟨h1 (by decide), h2 (by decide),
    (h3 (by decide) (by decide) 0 (by decide)).2⟩

/-! ### C10 — a returned 0 unambiguously signals that no bill was created -/

/-- C10: `DatabaseService.create_bill` is total (the whole body sits inside a
`try`, modelled by the `db_fails` flag): an internal failure rolls the
session back — the returned state is the pre-call state — and yields `0`;
a successful run returns the assigned number, which is at least 1 whenever
every stored bill is numbered ≥ 1 (an invariant the operation itself
preserves), and appends exactly one bill carrying that number.  Hence a
return of `0` always means no bill was created. -/
theorem createBill_zero_signals_failure (st : OrmDB) (bd : BillData) (f : Bool)
    (hinv : ∀ b ∈ st.bills, 1 ≤ b.bill_no) :
    ((st.create_bill bd f).1 = 0 → (st.create_bill bd f).2 = st)
    ∧ (f = false →
        1 ≤ (st.create_bill bd false).1
        ∧ ∃ nb : Bill, nb.bill_no = (st.create_bill bd false).1
            ∧ (st.create_bill bd false).2.bills = st.bills ++ [nb])
    ∧ (∀ b ∈ (st.create_bill bd f).2.bills, 1 ≤ b.bill_no) := by
  have key : ∀ pool : List Bill, (∀ b ∈ pool, 1 ≤ b.bill_no) →
      1 ≤ (match maxBillNo pool with
           | some m => if m ≠ 0 then m + 1 else 1
           | none => 1) := by
    intro pool hp
    rcases hm : maxBillNo pool with _ | m
    · simp
    · obtain ⟨b, hb, hbm⟩ := maxBillNo_mem pool m hm
      have h1 : 1 ≤ m := hbm ▸ hp b hb
      have h2 : m ≠ 0 := by omega
      show 1 ≤ if m ≠ 0 then m + 1 else 1
      rw [if_pos h2]
      omega
  have hn : 1 ≤ st.nextBillNo := by
    unfold OrmDB.nextBillNo
    by_cases hr : st.billResetDaily = true
    · rw [if_pos hr]
      exact key _ (fun b hb => hinv b (List.mem_filter.mp hb).1)
    · rw [if_neg hr]
      exact key st.bills hinv
  refine ⟨?_, ?_, ?_⟩
  · intro h0
    cases f
    · exfalso
      have hfst : (st.create_bill bd false).1 = st.nextBillNo := rfl
      rw [hfst] at h0
      omega
    · rfl
  · intro _
    refine ⟨hn,
      ⟨{ id := st.next_bill_id, bill_no := st.nextBillNo,
         customer_name := bd.customer_name, total_amount := bd.total_amount,
         items := bd.items.map (enrichItem st.getProduct), status := "CONFIRMED",
         created_date := st.today, created_time := st.now_time,
         updated_date := st.today, updated_time := st.now_time }, rfl, rfl⟩⟩
  · intro b hb
    cases f
    · have hbills : (st.create_bill bd false).2.bills = st.bills ++
          [{ id := st.next_bill_id, bill_no := st.nextBillNo,
             customer_name := bd.customer_name, total_amount := bd.total_amount,
             items := bd.items.map (enrichItem st.getProduct), status := "CONFIRMED",
             created_date := st.today, created_time := st.now_time,
             updated_date := st.today, updated_time := st.now_time }] := rfl
      rw [hbills] at hb
      rcases List.mem_append.mp hb with hb | hb
      · exact hinv b hb
      · rcases List.mem_singleton.mp hb with rfl
        exact hn
    · exact hinv b hb

/-- Fixture for the C10 witness. -/
def c10st : OrmDB :=
  { products := [], categories := [], bills := [], settings := [],
    inventory := [], next_bill_id := 1, today := 0, now_time := 0 }

/-- Fixture for the C10 witness. -/
def c10bd : BillData :=
  { customer_name := "", total_amount := 0, items := [] }

theorem createBill_zero_signals_failure_witness :
    (c10st.create_bill c10bd true).2 = c10st
    ∧ 1 ≤ (c10st.create_bill c10bd false).1 := by
  obtain ⟨h1, -, -⟩ := createBill_zero_signals_failure c10st c10bd true (by decide)
  obtain ⟨-, h2, -⟩ := createBill_zero_signals_failure c10st c10bd false (by decide)
  exact ⟨h1 rfl, (h2 rfl).1⟩

end PSM
